import Mathlib

/-!
Shallow embedding of `examples/c_tebd.py` (TeNPy example script).

The script is orchestration glue over the external `tenpy` library: it builds
parameter dictionaries, calls library routines (model construction, MPS
construction, TEBD engine runs, measurements, an external DMRG routine and
exact-diagonalization helpers), prints results and saves one plot.  The
library itself is not part of the given source, so it is embedded as an
abstract oracle (`TenpyLib`): every library operation may raise an exception
(`Except`), and state objects (`S`), model objects (`M`) and site lists
(`Sites`) are abstract types.  The script's own control flow, parameter
values, call order, prints and file writes are translated line by line.

Numeric literals of the Python source are modelled as exact rational numbers
(`0.05` as `1/20`, and so on).  The one place where binary64 representation
could change a discrete result is the float floor division
`int(dt_measure // dt)`; for the hardcoded invocation `0.05 // 0.01` the
result is `5` both for the ideal decimal values and for the exact binary64
values of the literals (`0.05₆₄ = 5 · 0.01₆₄ + 2⁻⁵⁹`), which is proved below
on the exact binary64 values (`float64_0_05`, `float64_0_01`).
-/

namespace CTebd

/-- Model parameters dictionary passed to `TFIChain` (keys of the Python
dict `model_params`). -/
structure ModelParams where
  L : ℕ
  J : ℚ
  g : ℚ
  bc_MPS : String
  conserve : Option String
  verbose : Bool
deriving DecidableEq, Repr

/-- Truncation parameters sub-dictionary (`trunc_params`).  The ground-state
drivers omit the `trunc_cut` key; this is modelled as `trunc_cut = none`,
the same value the lightcone driver passes explicitly (`None`). -/
structure TruncParams where
  chi_max : ℕ
  svd_min : ℚ
  trunc_cut : Option ℚ
deriving DecidableEq, Repr

/-- TEBD algorithm parameters dictionary (`tebd_params`).  Keys that a given
driver does not put in its dict are modelled as `none` / `0`. -/
structure TebdParams where
  order : ℕ
  delta_tau_list : Option (List ℚ)
  dt : Option ℚ
  N_steps : ℤ
  max_error_E : Option ℚ
  trunc_params : TruncParams
  verbose : Bool
deriving DecidableEq, Repr

/-- Observable events of the script: console prints, library calls (with the
arguments the script passes), plot rendering and file saves.  The
constructor `directFieldWrite` stands for a direct assignment to an
attribute or internal field of a library-owned object; the source contains
no such assignment, so the embedding never emits it, and the frame claim is
stated as its absence from every trace. -/
inductive Event where
  | print (s : String)
  | printVal (label : String) (v : ℚ)
  | printNatList (label : String) (v : List ℕ)
  | mkTFIChain (p : ModelParams)
  | fromProductState (state : List String) (bc : String)
  | engineRunGS
  | engineRun
  | bondEnergies
  | expectationValue (op : String)
  | entanglementEntropy
  | correlationLength
  | exactDiag (L : ℕ) (J g : ℚ)
  | analyticE (J g : ℚ)
  | dmrgRun (L : ℕ) (g : ℚ) (verbose : Bool)
  | applyLocalOp (i : ℕ) (op : String) (unitary : Bool)
  | plotRender
  | savePDF (filename : String)
  | directFieldWrite (obj : String) (field : String)
deriving DecidableEq, Repr

/-- A computation of the script: the list of events it emitted, together
with either its result or the first uncaught exception.  Once a library
call raises, no further events are emitted (Python unwinds the stack). -/
abbrev Proc (E α : Type) := List Event × Except E α

/-- Sequencing of script steps: on success the traces are concatenated, on
an exception the continuation never runs. -/
def Proc.bind {E α β : Type} (x : Proc E α) (f : α → Proc E β) : Proc E β :=
  match x with
  | (tr, Except.ok a) => (tr ++ (f a).1, (f a).2)
  | (tr, Except.error e) => (tr, Except.error e)

instance (E : Type) : Monad (Proc E) where
  pure a := ([], Except.ok a)
  bind := Proc.bind

@[simp] theorem Proc.bind_eq {E α β : Type} (x : Proc E α) (f : α → Proc E β) :
    x >>= f = Proc.bind x f := rfl

@[simp] theorem Proc.pure_eq {E α : Type} (a : α) :
    (pure a : Proc E α) = ([], Except.ok a) := rfl

@[simp] theorem Proc.bind_ok {E α β : Type} (tr : List Event) (a : α) (f : α → Proc E β) :
    Proc.bind (tr, Except.ok a) f = (tr ++ (f a).1, (f a).2) := rfl

@[simp] theorem Proc.bind_error {E α β : Type} (tr : List Event) (e : E) (f : α → Proc E β) :
    Proc.bind (tr, Except.error e) f = (tr, Except.error e) := rfl

/-- A single library call: one event, and the library's verdict. -/
def Proc.call {E α : Type} (ev : Event) (r : Except E α) : Proc E α := ([ev], r)

/-- A `print` of a fixed string. -/
def Proc.out {E : Type} (s : String) : Proc E Unit := ([Event.print s], Except.ok ())

/-- A `print` of a label together with a numeric value. -/
def Proc.outVal {E : Type} (label : String) (v : ℚ) : Proc E Unit :=
  ([Event.printVal label v], Except.ok ())

/-- A `print` of a label together with a list of naturals (bond dimensions). -/
def Proc.outNatList {E : Type} (label : String) (v : List ℕ) : Proc E Unit :=
  ([Event.printNatList label v], Except.ok ())

/-- The abstract tenpy library together with the two external helper modules
(`tfi_exact`, `d_dmrg`) the script imports.  `E` is the type of exceptions,
`S` the type of MPS state objects, `M` the type of model objects, `Sites`
the type of the site lists returned by `M.lat.mps_sites()`.  Attribute
reads (`M.lat.N_sites`, `M.lat.bc_MPS`, `psi.chi`) are modelled as total;
every actual library call may raise. -/
structure TenpyLib (E S M Sites : Type) where
  mkTFIChain : ModelParams → Except E M
  lat_N_sites : M → ℕ
  lat_mps_sites : M → Sites
  lat_bc_MPS : M → String
  from_product_state : Sites → List String → String → Except E S
  run_GS : M → TebdParams → S → Except E S
  run : M → TebdParams → S → Except E S
  bond_energies : M → S → Except E (List ℚ)
  expectation_value : S → String → Except E (List ℚ)
  chi : S → List ℕ
  entanglement_entropy : S → Except E (List ℚ)
  correlation_length : S → Except E ℚ
  apply_local_op : S → ℕ → String → Bool → Except E S
  dmrg_finite : ℕ → ℚ → Bool → Except E (ℚ × S × M)
  finite_gs_energy : ℕ → ℚ → ℚ → Except E ℚ
  infinite_gs_energy : ℚ → ℚ → Except E ℚ
  figure_and_plot : Except E Unit
  savefig : String → Except E Unit

/-- A total (never-raising) model of the library, used to reason about the
success path.  The exception type of its lift is `Empty`. -/
structure TenpyLibPure (S M Sites : Type) where
  mkTFIChain : ModelParams → M
  lat_N_sites : M → ℕ
  lat_mps_sites : M → Sites
  lat_bc_MPS : M → String
  from_product_state : Sites → List String → String → S
  run_GS : M → TebdParams → S → S
  run : M → TebdParams → S → S
  bond_energies : M → S → List ℚ
  expectation_value : S → String → List ℚ
  chi : S → List ℕ
  entanglement_entropy : S → List ℚ
  correlation_length : S → ℚ
  apply_local_op : S → ℕ → String → Bool → S
  dmrg_finite : ℕ → ℚ → Bool → ℚ × S × M
  finite_gs_energy : ℕ → ℚ → ℚ → ℚ
  infinite_gs_energy : ℚ → ℚ → ℚ

/-- Lift a total library model to the fallible interface: every call
succeeds. -/
def TenpyLibPure.toLib {S M Sites : Type} (p : TenpyLibPure S M Sites) :
    TenpyLib Empty S M Sites :=
  TenpyLib.mk
    (fun mp => Except.ok (p.mkTFIChain mp))
    p.lat_N_sites
    p.lat_mps_sites
    p.lat_bc_MPS
    (fun sites st bc => Except.ok (p.from_product_state sites st bc))
    (fun m tp s => Except.ok (p.run_GS m tp s))
    (fun m tp s => Except.ok (p.run m tp s))
    (fun m s => Except.ok (p.bond_energies m s))
    (fun s op => Except.ok (p.expectation_value s op))
    p.chi
    (fun s => Except.ok (p.entanglement_entropy s))
    (fun s => Except.ok (p.correlation_length s))
    (fun s i op u => Except.ok (p.apply_local_op s i op u))
    (fun L g v => Except.ok (p.dmrg_finite L g v))
    (fun L J g => Except.ok (p.finite_gs_energy L J g))
    (fun J g => Except.ok (p.infinite_gs_energy J g))
    (Except.ok ())
    (fun _ => Except.ok ())

@[simp] theorem toLib_mkTFIChain {S M Sites : Type} (p : TenpyLibPure S M Sites) (mp : ModelParams) :
    p.toLib.mkTFIChain mp = Except.ok (p.mkTFIChain mp) := rfl

@[simp] theorem toLib_lat_N_sites {S M Sites : Type} (p : TenpyLibPure S M Sites) (m : M) :
    p.toLib.lat_N_sites m = p.lat_N_sites m := rfl

@[simp] theorem toLib_lat_mps_sites {S M Sites : Type} (p : TenpyLibPure S M Sites) (m : M) :
    p.toLib.lat_mps_sites m = p.lat_mps_sites m := rfl

@[simp] theorem toLib_lat_bc_MPS {S M Sites : Type} (p : TenpyLibPure S M Sites) (m : M) :
    p.toLib.lat_bc_MPS m = p.lat_bc_MPS m := rfl

@[simp] theorem toLib_from_product_state {S M Sites : Type} (p : TenpyLibPure S M Sites)
    (sites : Sites) (st : List String) (bc : String) :
    p.toLib.from_product_state sites st bc = Except.ok (p.from_product_state sites st bc) := rfl

@[simp] theorem toLib_run_GS {S M Sites : Type} (p : TenpyLibPure S M Sites) (m : M)
    (tp : TebdParams) (s : S) : p.toLib.run_GS m tp s = Except.ok (p.run_GS m tp s) := rfl

@[simp] theorem toLib_run {S M Sites : Type} (p : TenpyLibPure S M Sites) (m : M)
    (tp : TebdParams) (s : S) : p.toLib.run m tp s = Except.ok (p.run m tp s) := rfl

@[simp] theorem toLib_bond_energies {S M Sites : Type} (p : TenpyLibPure S M Sites) (m : M)
    (s : S) : p.toLib.bond_energies m s = Except.ok (p.bond_energies m s) := rfl

@[simp] theorem toLib_expectation_value {S M Sites : Type} (p : TenpyLibPure S M Sites) (s : S)
    (op : String) : p.toLib.expectation_value s op = Except.ok (p.expectation_value s op) := rfl

@[simp] theorem toLib_chi {S M Sites : Type} (p : TenpyLibPure S M Sites) (s : S) :
    p.toLib.chi s = p.chi s := rfl

@[simp] theorem toLib_entanglement_entropy {S M Sites : Type} (p : TenpyLibPure S M Sites)
    (s : S) : p.toLib.entanglement_entropy s = Except.ok (p.entanglement_entropy s) := rfl

@[simp] theorem toLib_correlation_length {S M Sites : Type} (p : TenpyLibPure S M Sites)
    (s : S) : p.toLib.correlation_length s = Except.ok (p.correlation_length s) := rfl

@[simp] theorem toLib_apply_local_op {S M Sites : Type} (p : TenpyLibPure S M Sites) (s : S)
    (i : ℕ) (op : String) (u : Bool) :
    p.toLib.apply_local_op s i op u = Except.ok (p.apply_local_op s i op u) := rfl

@[simp] theorem toLib_dmrg_finite {S M Sites : Type} (p : TenpyLibPure S M Sites) (L : ℕ)
    (g : ℚ) (v : Bool) : p.toLib.dmrg_finite L g v = Except.ok (p.dmrg_finite L g v) := rfl

@[simp] theorem toLib_finite_gs_energy {S M Sites : Type} (p : TenpyLibPure S M Sites) (L : ℕ)
    (J g : ℚ) : p.toLib.finite_gs_energy L J g = Except.ok (p.finite_gs_energy L J g) := rfl

@[simp] theorem toLib_infinite_gs_energy {S M Sites : Type} (p : TenpyLibPure S M Sites)
    (J g : ℚ) : p.toLib.infinite_gs_energy J g = Except.ok (p.infinite_gs_energy J g) := rfl

@[simp] theorem toLib_figure_and_plot {S M Sites : Type} (p : TenpyLibPure S M Sites) :
    p.toLib.figure_and_plot = Except.ok () := rfl

@[simp] theorem toLib_savefig {S M Sites : Type} (p : TenpyLibPure S M Sites) (f : String) :
    p.toLib.savefig f = Except.ok () := rfl

/-- A trivial total library over `PUnit` objects, used to instantiate the
abstract types in concrete scenarios. -/
def unitPure : TenpyLibPure PUnit PUnit PUnit :=
  TenpyLibPure.mk (fun _ => PUnit.unit) (fun _ => 0) (fun _ => PUnit.unit) (fun _ => "")
    (fun _ _ _ => PUnit.unit) (fun _ _ _ => PUnit.unit) (fun _ _ _ => PUnit.unit)
    (fun _ _ => []) (fun _ _ => []) (fun _ => []) (fun _ => []) (fun _ => 0)
    (fun _ _ _ _ => PUnit.unit) (fun _ _ _ => (0, PUnit.unit, PUnit.unit))
    (fun _ _ _ => 0) (fun _ _ => 0)

/-- Python float floor division `a // b`, on the exact rational values of the
operands: the floor of the exact quotient.  (CPython computes this through
`fmod`; for the values appearing in this script the computation is exact and
agrees with the floor of the exact quotient.) -/
def pyFloorDiv (a b : ℚ) : ℤ := ⌊a / b⌋

/-- Python `int()` conversion of a float: truncation toward zero, on the
exact rational value. -/
def pyInt (q : ℚ) : ℤ := if 0 ≤ q then ⌊q⌋ else -⌊-q⌋

/-- The exact rational value of the binary64 floating-point literal `0.05`
(the IEEE-754 double nearest to 1/20). -/
def float64_0_05 : ℚ := 7205759403792794 / 2 ^ 57

/-- The exact rational value of the binary64 floating-point literal `0.01`
(the IEEE-754 double nearest to 1/100). -/
def float64_0_01 : ℚ := 5764607523034235 / 2 ^ 59

/-- Round to the nearest integer, ties to even (the rounding used by
Python's fixed-point float formatting). -/
def roundHalfEven (q : ℚ) : ℤ :=
  let f := ⌊q⌋
  let r := q - (f : ℚ)
  if r < 1 / 2 then f
  else if 1 / 2 < r then f + 1
  else if f % 2 = 0 then f else f + 1

/-- Decimal digits of `n`, left-padded with zeros to width `d`. -/
def padDigits (d : ℕ) (n : ℕ) : String :=
  let s := toString n
  String.mk (List.replicate (d - s.length) '0') ++ s

/-- Python fixed-point formatting `.df` of a number: round `q * 10^d` to the
nearest integer (ties to even) and render with `d` decimal places. -/
def formatFixed (d : ℕ) (q : ℚ) : String :=
  let n := roundHalfEven (q * 10 ^ d)
  let sign := if n < 0 then "-" else ""
  sign ++ toString (n.natAbs / 10 ^ d) ++ "." ++ padDigits d (n.natAbs % 10 ^ d)

/-- Python `'{g:.2f}'.format` of a number. -/
def format2f (q : ℚ) : String := formatFixed 2 q

/-- The arithmetic mean `np.mean` of a list of rationals. -/
def listMean (l : List ℚ) : ℚ := l.sum / l.length

/-- The local constant `dt_measure = 0.05` of the lightcone driver. -/
def dt_measure : ℚ := 1 / 20

/-- The `tebd_params` dict of `example_TEBD_gs_tf_ising_finite`. -/
def finite_tebd_params (verbose : Bool) : TebdParams :=
  TebdParams.mk 2 (some [1 / 10, 1 / 100, 1 / 1000, 1 / 10 ^ 4, 1 / 10 ^ 5]) none 10
    (some (1 / 10 ^ 6)) (TruncParams.mk 30 (1 / 10 ^ 10) none) verbose

/-- The `tebd_params` dict of `example_TEBD_gs_tf_ising_infinite`. -/
def infinite_tebd_params (verbose : Bool) : TebdParams :=
  TebdParams.mk 2 (some [1 / 10, 1 / 100, 1 / 1000, 1 / 10 ^ 4, 1 / 10 ^ 5]) none 10
    (some (1 / 10 ^ 8)) (TruncParams.mk 30 (1 / 10 ^ 10) none) verbose

/-- The `tebd_params` dict of `example_TEBD_tf_ising_lightcone`:
`N_steps = int(dt_measure // dt)` steps of size `dt`. -/
def lightcone_tebd_params (dt : ℚ) (verbose : Bool) : TebdParams :=
  TebdParams.mk 2 none (some dt) (pyFloorDiv dt_measure dt) none
    (TruncParams.mk 50 (1 / 10 ^ 10) none) verbose

/-- Modelled from the spec: `tebd.Engine(psi, M, tebd_params)` (whose class
is not part of the given source) stores its arguments and starts with
`evolved_time = 0`. -/
structure Engine (S M : Type) where
  psi : S
  model : M
  params : TebdParams
  evolved_time : ℚ

/-- Modelled from the spec: `eng.run()` makes `N_steps` time steps of size
`dt` at once (source comment: "tebd.Engine makes 'N_steps' steps of `dt` at
once"), so one call advances `evolved_time` by `N_steps * dt`; the update of
the state is the abstract library transition `lib.run`. -/
def Engine.run {E S M Sites : Type} (lib : TenpyLib E S M Sites) (e : Engine S M) :
    Proc E (Engine S M) :=
  ([Event.engineRun],
    match lib.run e.model e.params e.psi with
    | Except.ok s1 =>
        Except.ok (Engine.mk s1 e.model e.params
          (e.evolved_time + (e.params.N_steps : ℚ) * e.params.dt.getD 0))
    | Except.error err => Except.error err)

/-- The measurement loop of the lightcone driver:
`for n in range(k): eng.run(); S.append(psi.entanglement_entropy())`. -/
def lightcone_loop {E S M Sites : Type} (lib : TenpyLib E S M Sites) :
    ℕ → Engine S M → List (List ℚ) → Proc E (Engine S M × List (List ℚ))
  | 0, e, acc => pure (e, acc)
  | n + 1, e, acc => do
      let e1 ← Engine.run lib e
      let ent ← Proc.call Event.entanglementEntropy (lib.entanglement_entropy e1.psi)
      lightcone_loop lib n e1 (acc ++ [ent])

/-- Embedding of `example_TEBD_gs_tf_ising_finite(L, g, verbose)`. -/
def example_TEBD_gs_tf_ising_finite {E S M Sites : Type} (lib : TenpyLib E S M Sites)
    (L : ℕ) (g : ℚ) (verbose : Bool) : Proc E (ℚ × S × M) := do
  Proc.out "finite TEBD, imaginary time evolution, transverse field Ising"
  Proc.out ("L=" ++ toString L ++ ", g=" ++ format2f g)
  let model_params := ModelParams.mk L 1 g "finite" none verbose
  let m ← Proc.call (Event.mkTFIChain model_params) (lib.mkTFIChain model_params)
  let product_state := List.replicate (lib.lat_N_sites m) "up"
  let psi ← Proc.call (Event.fromProductState product_state (lib.lat_bc_MPS m))
    (lib.from_product_state (lib.lat_mps_sites m) product_state (lib.lat_bc_MPS m))
  let tebd_params := finite_tebd_params verbose
  let eng := Engine.mk psi m tebd_params 0
  let psi1 ← Proc.call Event.engineRunGS (lib.run_GS eng.model eng.params eng.psi)
  let be ← Proc.call Event.bondEnergies (lib.bond_energies m psi1)
  let en := be.sum
  Proc.outVal "E = " en
  Proc.outNatList "final bond dimensions: " (lib.chi psi1)
  let sx ← Proc.call (Event.expectationValue "Sigmax") (lib.expectation_value psi1 "Sigmax")
  Proc.outVal "magnetization in X = " sx.sum
  let sz ← Proc.call (Event.expectationValue "Sigmaz") (lib.expectation_value psi1 "Sigmaz")
  Proc.outVal "magnetization in Z = " sz.sum
  if L < 20 then do
    let e_exact ← Proc.call (Event.exactDiag L 1 g) (lib.finite_gs_energy L 1 g)
    Proc.outVal "Exact diagonalization: E = " e_exact
    Proc.outVal "relative error: " |(en - e_exact) / e_exact|
  pure (en, psi1, m)

/-- Embedding of `example_TEBD_gs_tf_ising_infinite(g, verbose)`. -/
def example_TEBD_gs_tf_ising_infinite {E S M Sites : Type} (lib : TenpyLib E S M Sites)
    (g : ℚ) (verbose : Bool) : Proc E (ℚ × S × M) := do
  Proc.out "infinite TEBD, imaginary time evolution, transverse field Ising"
  Proc.out ("g=" ++ format2f g)
  let model_params := ModelParams.mk 2 1 g "infinite" none verbose
  let m ← Proc.call (Event.mkTFIChain model_params) (lib.mkTFIChain model_params)
  let product_state := List.replicate (lib.lat_N_sites m) "up"
  let psi ← Proc.call (Event.fromProductState product_state (lib.lat_bc_MPS m))
    (lib.from_product_state (lib.lat_mps_sites m) product_state (lib.lat_bc_MPS m))
  let tebd_params := infinite_tebd_params verbose
  let eng := Engine.mk psi m tebd_params 0
  let psi1 ← Proc.call Event.engineRunGS (lib.run_GS eng.model eng.params eng.psi)
  let be ← Proc.call Event.bondEnergies (lib.bond_energies m psi1)
  let en := be.sum
  Proc.outVal "E (per site) = " en
  Proc.outNatList "final bond dimensions: " (lib.chi psi1)
  let sx ← Proc.call (Event.expectationValue "Sigmax") (lib.expectation_value psi1 "Sigmax")
  Proc.outVal "<sigma_x> = " (listMean sx)
  let sz ← Proc.call (Event.expectationValue "Sigmaz") (lib.expectation_value psi1 "Sigmaz")
  Proc.outVal "<sigma_z> = " (listMean sz)
  let xi ← Proc.call Event.correlationLength (lib.correlation_length psi1)
  Proc.outVal "correlation length:" xi
  let e_exact ← Proc.call (Event.analyticE 1 g) (lib.infinite_gs_energy 1 g)
  Proc.outVal "Analytic result: E (per site) = " e_exact
  Proc.outVal "relative error: " |(en - e_exact) / e_exact|
  pure (en, psi1, m)

/-- Embedding of `example_TEBD_tf_ising_lightcone(L, g, tmax, dt, verbose)`. -/
def example_TEBD_tf_ising_lightcone {E S M Sites : Type} (lib : TenpyLib E S M Sites)
    (L : ℕ) (g tmax dt : ℚ) (verbose : Bool) : Proc E Unit := do
  Proc.out "finite TEBD, real time evolution"
  Proc.out ("L=" ++ toString L ++ ", g=" ++ format2f g ++ ", tmax=" ++ format2f tmax
    ++ ", dt=" ++ formatFixed 3 dt)
  Proc.out "(run DMRG to get the groundstate)"
  let r ← Proc.call (Event.dmrgRun L g false) (lib.dmrg_finite L g false)
  Proc.out "(DMRG finished)"
  let psi0 := r.2.1
  let m := r.2.2
  let i0 := L / 2
  let psi1 ← Proc.call (Event.applyLocalOp i0 "Sigmaz" true)
    (lib.apply_local_op psi0 i0 "Sigmaz" true)
  let tebd_params := lightcone_tebd_params dt verbose
  let eng := Engine.mk psi1 m tebd_params 0
  let s0 ← Proc.call Event.entanglementEntropy (lib.entanglement_entropy eng.psi)
  let _ ← lightcone_loop lib (pyInt (tmax / dt_measure + 1 / 2)).toNat eng [s0]
  let _ ← Proc.call Event.plotRender lib.figure_and_plot
  let filename := "c_tebd_lightcone_" ++ format2f g ++ ".pdf"
  let _ ← Proc.call (Event.savePDF filename) (lib.savefig filename)
  Proc.out ("saved " ++ filename)

/-- The separator line `"-" * 100` printed between the three invocations. -/
def sepLine : String := String.mk (List.replicate 100 '-')

/-- Embedding of the `__main__` block: three hardcoded invocations, nothing
else (no flags, no configuration, no persisted state: the whole script is a
function of the library alone). -/
def c_tebd_main {E S M Sites : Type} (lib : TenpyLib E S M Sites) : Proc E Unit := do
  let _ ← example_TEBD_gs_tf_ising_finite lib 10 1 true
  Proc.out sepLine
  let _ ← example_TEBD_gs_tf_ising_infinite lib (3 / 2) true
  Proc.out sepLine
  example_TEBD_tf_ising_lightcone lib 20 (3 / 2) 3 (1 / 100) true

section PureEval

variable {S M Sites : Type}

/-- The model object constructed by the finite driver. -/
def finite_model (p : TenpyLibPure S M Sites) (L : ℕ) (g : ℚ) (v : Bool) : M :=
  p.mkTFIChain (ModelParams.mk L 1 g "finite" none v)

/-- The state after `run_GS` in the finite driver. -/
def finite_psi (p : TenpyLibPure S M Sites) (L : ℕ) (g : ℚ) (v : Bool) : S :=
  p.run_GS (finite_model p L g v) (finite_tebd_params v)
    (p.from_product_state (p.lat_mps_sites (finite_model p L g v))
      (List.replicate (p.lat_N_sites (finite_model p L g v)) "up")
      (p.lat_bc_MPS (finite_model p L g v)))

/-- The energy reported by the finite driver. -/
def finite_E (p : TenpyLibPure S M Sites) (L : ℕ) (g : ℚ) (v : Bool) : ℚ :=
  (p.bond_energies (finite_model p L g v) (finite_psi p L g v)).sum

/-- The trace of the finite driver on a total library. -/
def finite_trace (p : TenpyLibPure S M Sites) (L : ℕ) (g : ℚ) (v : Bool) : List Event :=
  [Event.print "finite TEBD, imaginary time evolution, transverse field Ising",
   Event.print ("L=" ++ toString L ++ ", g=" ++ format2f g),
   Event.mkTFIChain (ModelParams.mk L 1 g "finite" none v),
   Event.fromProductState (List.replicate (p.lat_N_sites (finite_model p L g v)) "up")
     (p.lat_bc_MPS (finite_model p L g v)),
   Event.engineRunGS,
   Event.bondEnergies,
   Event.printVal "E = " (finite_E p L g v),
   Event.printNatList "final bond dimensions: " (p.chi (finite_psi p L g v)),
   Event.expectationValue "Sigmax",
   Event.printVal "magnetization in X = " (p.expectation_value (finite_psi p L g v) "Sigmax").sum,
   Event.expectationValue "Sigmaz",
   Event.printVal "magnetization in Z = " (p.expectation_value (finite_psi p L g v) "Sigmaz").sum]
  ++ (if L < 20 then
      [Event.exactDiag L 1 g,
       Event.printVal "Exact diagonalization: E = " (p.finite_gs_energy L 1 g),
       Event.printVal "relative error: "
         |(finite_E p L g v - p.finite_gs_energy L 1 g) / p.finite_gs_energy L 1 g|]
     else [])

theorem finite_eval (p : TenpyLibPure S M Sites) (L : ℕ) (g : ℚ) (v : Bool) :
    example_TEBD_gs_tf_ising_finite p.toLib L g v =
      (finite_trace p L g v,
       Except.ok (finite_E p L g v, finite_psi p L g v, finite_model p L g v)) := by
  by_cases h : L < 20 <;>
    simp [example_TEBD_gs_tf_ising_finite, finite_trace, finite_E, finite_psi, finite_model,
      TenpyLibPure.toLib, Proc.call, Proc.out, Proc.outVal, Proc.outNatList, h]

/-- The model object constructed by the infinite driver. -/
def infinite_model (p : TenpyLibPure S M Sites) (g : ℚ) (v : Bool) : M :=
  p.mkTFIChain (ModelParams.mk 2 1 g "infinite" none v)

/-- The state after `run_GS` in the infinite driver. -/
def infinite_psi (p : TenpyLibPure S M Sites) (g : ℚ) (v : Bool) : S :=
  p.run_GS (infinite_model p g v) (infinite_tebd_params v)
    (p.from_product_state (p.lat_mps_sites (infinite_model p g v))
      (List.replicate (p.lat_N_sites (infinite_model p g v)) "up")
      (p.lat_bc_MPS (infinite_model p g v)))

/-- The energy reported by the infinite driver. -/
def infinite_E (p : TenpyLibPure S M Sites) (g : ℚ) (v : Bool) : ℚ :=
  (p.bond_energies (infinite_model p g v) (infinite_psi p g v)).sum

/-- The trace of the infinite driver on a total library. -/
def infinite_trace (p : TenpyLibPure S M Sites) (g : ℚ) (v : Bool) : List Event :=
  [Event.print "infinite TEBD, imaginary time evolution, transverse field Ising",
   Event.print ("g=" ++ format2f g),
   Event.mkTFIChain (ModelParams.mk 2 1 g "infinite" none v),
   Event.fromProductState (List.replicate (p.lat_N_sites (infinite_model p g v)) "up")
     (p.lat_bc_MPS (infinite_model p g v)),
   Event.engineRunGS,
   Event.bondEnergies,
   Event.printVal "E (per site) = " (infinite_E p g v),
   Event.printNatList "final bond dimensions: " (p.chi (infinite_psi p g v)),
   Event.expectationValue "Sigmax",
   Event.printVal "<sigma_x> = " (listMean (p.expectation_value (infinite_psi p g v) "Sigmax")),
   Event.expectationValue "Sigmaz",
   Event.printVal "<sigma_z> = " (listMean (p.expectation_value (infinite_psi p g v) "Sigmaz")),
   Event.correlationLength,
   Event.printVal "correlation length:" (p.correlation_length (infinite_psi p g v)),
   Event.analyticE 1 g,
   Event.printVal "Analytic result: E (per site) = " (p.infinite_gs_energy 1 g),
   Event.printVal "relative error: "
     |(infinite_E p g v - p.infinite_gs_energy 1 g) / p.infinite_gs_energy 1 g|]

theorem infinite_eval (p : TenpyLibPure S M Sites) (g : ℚ) (v : Bool) :
    example_TEBD_gs_tf_ising_infinite p.toLib g v =
      (infinite_trace p g v,
       Except.ok (infinite_E p g v, infinite_psi p g v, infinite_model p g v)) := by
  simp [example_TEBD_gs_tf_ising_infinite, infinite_trace, infinite_E, infinite_psi,
    infinite_model, TenpyLibPure.toLib, Proc.call, Proc.out, Proc.outVal, Proc.outNatList]

/-- One `eng.run()` on a total library, as a pure engine transition. -/
def Engine.runPure (p : TenpyLibPure S M Sites) (e : Engine S M) : Engine S M :=
  Engine.mk (p.run e.model e.params e.psi) e.model e.params
    (e.evolved_time + (e.params.N_steps : ℚ) * e.params.dt.getD 0)

theorem Engine.run_pure (p : TenpyLibPure S M Sites) (e : Engine S M) :
    Engine.run p.toLib e = ([Event.engineRun], Except.ok (e.runPure p)) := rfl

/-- The measurement loop on a total library, as a pure function. -/
def loopPure (p : TenpyLibPure S M Sites) :
    ℕ → Engine S M → List (List ℚ) → Engine S M × List (List ℚ)
  | 0, e, acc => (e, acc)
  | n + 1, e, acc =>
      loopPure p n (e.runPure p) (acc ++ [p.entanglement_entropy (e.runPure p).psi])

theorem lightcone_loop_pure (p : TenpyLibPure S M Sites) (n : ℕ) (e : Engine S M)
    (acc : List (List ℚ)) :
    lightcone_loop p.toLib n e acc =
      (List.flatten (List.replicate n [Event.engineRun, Event.entanglementEntropy]),
       Except.ok (loopPure p n e acc)) := by
  induction n generalizing e acc with
  | zero => simp [lightcone_loop, loopPure]
  | succ n ih =>
      rw [lightcone_loop, loopPure]
      simp [Engine.run_pure, Proc.call, ih, List.replicate_succ]

theorem loopPure_params (p : TenpyLibPure S M Sites) (n : ℕ) (e : Engine S M)
    (acc : List (List ℚ)) : (loopPure p n e acc).1.params = e.params := by
  induction n generalizing e acc with
  | zero => rfl
  | succ n ih => simpa [loopPure, Engine.runPure] using ih (e.runPure p) _

theorem loopPure_length (p : TenpyLibPure S M Sites) (n : ℕ) (e : Engine S M)
    (acc : List (List ℚ)) : (loopPure p n e acc).2.length = acc.length + n := by
  induction n generalizing e acc with
  | zero => rfl
  | succ n ih =>
      have := ih (e.runPure p) (acc ++ [p.entanglement_entropy (e.runPure p).psi])
      simp [loopPure, this]
      omega

theorem loopPure_time (p : TenpyLibPure S M Sites) (n : ℕ) (e : Engine S M)
    (acc : List (List ℚ)) :
    (loopPure p n e acc).1.evolved_time =
      e.evolved_time + (n : ℚ) * ((e.params.N_steps : ℚ) * e.params.dt.getD 0) := by
  induction n generalizing e acc with
  | zero => simp [loopPure]
  | succ n ih =>
      have := ih (e.runPure p) (acc ++ [p.entanglement_entropy (e.runPure p).psi])
      rw [loopPure, this]
      simp [Engine.runPure]
      ring

/-- The number of measurement intervals of the lightcone driver:
`int(tmax / dt_measure + 0.5)`, clamped to `0` as `range` does. -/
def lightcone_N (tmax : ℚ) : ℕ := (pyInt (tmax / dt_measure + 1 / 2)).toNat

/-- The ground state returned by the external DMRG routine. -/
def lightcone_psi0 (p : TenpyLibPure S M Sites) (L : ℕ) (g : ℚ) : S :=
  (p.dmrg_finite L g false).2.1

/-- The model returned by the external DMRG routine. -/
def lightcone_m (p : TenpyLibPure S M Sites) (L : ℕ) (g : ℚ) : M :=
  (p.dmrg_finite L g false).2.2

/-- The perturbed state: `Sigmaz` applied at the middle site `i0 = L // 2`. -/
def lightcone_psi1 (p : TenpyLibPure S M Sites) (L : ℕ) (g : ℚ) : S :=
  p.apply_local_op (lightcone_psi0 p L g) (L / 2) "Sigmaz" true

/-- The engine constructed by the lightcone driver. -/
def lightcone_eng0 (p : TenpyLibPure S M Sites) (L : ℕ) (g dt : ℚ) (v : Bool) :
    Engine S M :=
  Engine.mk (lightcone_psi1 p L g) (lightcone_m p L g) (lightcone_tebd_params dt v) 0

/-- The entropy record `S` of the lightcone driver, just before plotting. -/
def lightcone_S (p : TenpyLibPure S M Sites) (L : ℕ) (g tmax dt : ℚ) (v : Bool) :
    List (List ℚ) :=
  (loopPure p (lightcone_N tmax) (lightcone_eng0 p L g dt v)
    [p.entanglement_entropy (lightcone_psi1 p L g)]).2

/-- The filename of the plot written by the lightcone driver:
`'c_tebd_lightcone_{g:.2f}.pdf'.format(g=g)`. -/
def lightcone_filename (g : ℚ) : String := "c_tebd_lightcone_" ++ format2f g ++ ".pdf"

/-- The trace of the lightcone driver on a total library. -/
def lightcone_trace (p : TenpyLibPure S M Sites) (L : ℕ) (g tmax dt : ℚ) (v : Bool) :
    List Event :=
  [Event.print "finite TEBD, real time evolution",
   Event.print ("L=" ++ toString L ++ ", g=" ++ format2f g ++ ", tmax=" ++ format2f tmax
     ++ ", dt=" ++ formatFixed 3 dt),
   Event.print "(run DMRG to get the groundstate)",
   Event.dmrgRun L g false,
   Event.print "(DMRG finished)",
   Event.applyLocalOp (L / 2) "Sigmaz" true,
   Event.entanglementEntropy]
  ++ List.flatten (List.replicate (lightcone_N tmax)
       [Event.engineRun, Event.entanglementEntropy])
  ++ [Event.plotRender,
      Event.savePDF (lightcone_filename g),
      Event.print ("saved " ++ lightcone_filename g)]

theorem lightcone_eval (p : TenpyLibPure S M Sites) (L : ℕ) (g tmax dt : ℚ) (v : Bool) :
    example_TEBD_tf_ising_lightcone p.toLib L g tmax dt v =
      (lightcone_trace p L g tmax dt v, Except.ok ()) := by
  rw [example_TEBD_tf_ising_lightcone]
  simp [lightcone_loop_pure, Proc.call, Proc.out, lightcone_trace, lightcone_N,
    lightcone_filename, lightcone_eng0, lightcone_psi1, lightcone_psi0, lightcone_m]

/-- The trace of the `__main__` block on a total library: exactly the three
hardcoded invocations, separated by the `"-" * 100` prints. -/
theorem main_eval (p : TenpyLibPure S M Sites) :
    c_tebd_main p.toLib =
      (finite_trace p 10 1 true ++ [Event.print sepLine]
        ++ infinite_trace p (3 / 2) true ++ [Event.print sepLine]
        ++ lightcone_trace p 20 (3 / 2) 3 (1 / 100) true,
       Except.ok ()) := by
  rw [c_tebd_main]
  simp [finite_eval, infinite_eval, lightcone_eval, Proc.out]

end PureEval

/-- Is this event the exact-diagonalization cross-check call
(`finite_gs_energy`)? -/
def Event.isExactCheck : Event → Bool
  | Event.exactDiag _ _ _ => true
  | _ => false

/-- Is this event the analytic cross-check call (`infinite_gs_energy`)? -/
def Event.isAnalyticCheck : Event → Bool
  | Event.analyticE _ _ => true
  | _ => false

/-- Is this event the print of a relative error? -/
def Event.isRelErrPrint : Event → Bool
  | Event.printVal "relative error: " _ => true
  | _ => false

/-- Is this event a model construction (`TFIChain(...)`)? -/
def Event.isModelConstruction : Event → Bool
  | Event.mkTFIChain _ => true
  | _ => false

/-- Is this event a file write (`plt.savefig`)? -/
def Event.isFileWrite : Event → Bool
  | Event.savePDF _ => true
  | _ => false

/-- Is this event a call of the external DMRG routine? -/
def Event.isDmrgCall : Event → Bool
  | Event.dmrgRun _ _ _ => true
  | _ => false

/-- Is this event a direct assignment to an internal field of a
library-owned object? -/
def Event.isDirectFieldWrite : Event → Bool
  | Event.directFieldWrite _ _ => true
  | _ => false

theorem filter_flatten_replicate {f : Event → Bool} {l : List Event}
    (h : l.filter f = []) (n : ℕ) :
    (List.flatten (List.replicate n l)).filter f = [] := by
  induction n with
  | zero => rfl
  | succ n ih => simp [List.replicate_succ, List.filter_append, h, ih]

/-- C1: In `example_TEBD_tf_ising_lightcone`, real time is advanced in fixed
increments: every `eng.run()` advances `evolved_time` by the same amount
`N_steps * dt`; the measurement interval is `dt_measure = 0.05`; the engine
is configured with `N_steps = int(dt_measure // dt)` steps of size `dt`; and
for the hardcoded invocation `dt = 0.01` the floor division yields `5`, so
each increment equals `dt_measure` — also when the floor division is
evaluated on the exact binary64 values of the literals `0.05` and `0.01`. -/
theorem claim_C1_fixed_time_increments :
    (∀ (S M Sites : Type) (p : TenpyLibPure S M Sites) (e : Engine S M),
        (e.runPure p).evolved_time =
          e.evolved_time + (e.params.N_steps : ℚ) * e.params.dt.getD 0)
    ∧ (∀ (S M Sites : Type) (p : TenpyLibPure S M Sites) (n : ℕ) (e : Engine S M)
        (acc : List (List ℚ)),
        (loopPure p n e acc).1.evolved_time =
          e.evolved_time + (n : ℚ) * ((e.params.N_steps : ℚ) * e.params.dt.getD 0))
    ∧ dt_measure = 1 / 20
    ∧ (∀ (S M Sites : Type) (p : TenpyLibPure S M Sites) (L : ℕ) (g dt : ℚ) (v : Bool),
        (lightcone_eng0 p L g dt v).params = lightcone_tebd_params dt v)
    ∧ (∀ (dt : ℚ) (v : Bool),
        (lightcone_tebd_params dt v).N_steps = pyFloorDiv dt_measure dt
        ∧ (lightcone_tebd_params dt v).dt = some dt)
    ∧ pyFloorDiv dt_measure (1 / 100) = 5
    ∧ (pyFloorDiv dt_measure (1 / 100) : ℚ) * (1 / 100) = dt_measure
    ∧ pyFloorDiv float64_0_05 float64_0_01 = 5 := by
  have h5 : pyFloorDiv dt_measure (1 / 100) = 5 := by
    rw [pyFloorDiv, dt_measure]
    norm_num
  refine ⟨fun S M Sites p e => rfl, fun S M Sites p n e acc => loopPure_time p n e acc, rfl,
    fun S M Sites p L g dt v => rfl, fun dt v => ⟨rfl, rfl⟩, h5, ?_, ?_⟩
  · rw [h5, dt_measure]
    norm_num
  · rw [pyFloorDiv, float64_0_05, float64_0_01]
    norm_num

/-- C2: `example_TEBD_gs_tf_ising_finite` performs the exact-diagonalization
cross-check — the call of `finite_gs_energy(L, 1., g)` and the print of the
relative error — exactly when `L < 20`, and for every `L` (also `L ≥ 20`)
the function returns normally. -/
theorem claim_C2_exact_check_iff_L_lt_20 :
    ∀ (S M Sites : Type) (p : TenpyLibPure S M Sites) (L : ℕ) (g : ℚ) (v : Bool),
      (example_TEBD_gs_tf_ising_finite p.toLib L g v).1.filter Event.isExactCheck
        = (if L < 20 then [Event.exactDiag L 1 g] else [])
      ∧ (example_TEBD_gs_tf_ising_finite p.toLib L g v).1.filter Event.isRelErrPrint
        = (if L < 20 then
            [Event.printVal "relative error: "
              |(finite_E p L g v - p.finite_gs_energy L 1 g) / p.finite_gs_energy L 1 g|]
           else [])
      ∧ (example_TEBD_gs_tf_ising_finite p.toLib L g v).2
        = Except.ok (finite_E p L g v, finite_psi p L g v, finite_model p L g v) := by
  intro S M Sites p L g v
  rw [finite_eval]
  by_cases h : L < 20 <;>
    simp [finite_trace, h, Event.isExactCheck, Event.isRelErrPrint, List.filter_append]

/-- C3: `example_TEBD_tf_ising_lightcone` executes its pipeline in a fixed
order for every input — DMRG ground state, then `Sigmaz` applied at the
middle site `i0 = L // 2` as a unitary, then `N = int(tmax / dt_measure +
0.5)` evolution intervals with the entanglement entropy recorded once before
the first interval and once after each interval — so the entropy record `S`
has exactly `N + 1` entries before plotting. -/
theorem claim_C3_pipeline_order_and_entropy_count :
    ∀ (S M Sites : Type) (p : TenpyLibPure S M Sites) (L : ℕ) (g tmax dt : ℚ) (v : Bool),
      (example_TEBD_tf_ising_lightcone p.toLib L g tmax dt v).1
        = [Event.print "finite TEBD, real time evolution",
           Event.print ("L=" ++ toString L ++ ", g=" ++ format2f g ++ ", tmax="
             ++ format2f tmax ++ ", dt=" ++ formatFixed 3 dt),
           Event.print "(run DMRG to get the groundstate)",
           Event.dmrgRun L g false,
           Event.print "(DMRG finished)",
           Event.applyLocalOp (L / 2) "Sigmaz" true,
           Event.entanglementEntropy]
          ++ List.flatten (List.replicate (lightcone_N tmax)
               [Event.engineRun, Event.entanglementEntropy])
          ++ [Event.plotRender,
              Event.savePDF (lightcone_filename g),
              Event.print ("saved " ++ lightcone_filename g)]
      ∧ lightcone_N tmax = (pyInt (tmax / dt_measure + 1 / 2)).toNat
      ∧ (lightcone_S p L g tmax dt v).length = lightcone_N tmax + 1 := by
  intro S M Sites p L g tmax dt v
  refine ⟨by rw [lightcone_eval]; rfl, rfl, ?_⟩
  rw [lightcone_S, loopPure_length]
  simp [Nat.add_comm]

/-- C3, counterexample to the claim as stated: the claim asserts that for
every input the entropy record has exactly `N + 1` entries with
`N = int(tmax / dt_measure + 0.5)`.  At `tmax = -3` (with `L = 20`,
`g = 1.5`, `dt = 0.01` and the trivial total library) that integer is `-59`
— but `range` of a negative integer is empty, so the loop body never runs
and the record has `1` entry, not `-59 + 1 = -58`. -/
theorem claim_C3_counterexample_negative_tmax :
    pyInt ((-3) / dt_measure + 1 / 2) = -59
    ∧ lightcone_N (-3) = 0
    ∧ (lightcone_S unitPure 20 (3 / 2) (-3) (1 / 100) true).length = 1
    ∧ ((lightcone_S unitPure 20 (3 / 2) (-3) (1 / 100) true).length : ℤ)
        ≠ pyInt ((-3) / dt_measure + 1 / 2) + 1 := by
  have hq : (-3 : ℚ) / dt_measure + 1 / 2 = -(119 / 2) := by
    rw [dt_measure]
    norm_num
  have hpy : pyInt ((-3) / dt_measure + 1 / 2) = -59 := by
    rw [pyInt, hq]
    norm_num
  have hN : lightcone_N (-3) = 0 := by
    rw [lightcone_N, hpy]
    rfl
  have hlen : (lightcone_S unitPure 20 (3 / 2) (-3) (1 / 100) true).length = 1 := by
    rw [lightcone_S, loopPure_length, hN]
    rfl
  refine ⟨hpy, hN, hlen, ?_⟩
  rw [hlen, hpy]
  decide

/-- C4: `example_TEBD_gs_tf_ising_infinite` always performs the analytic
cross-check — for every `g` it calls `infinite_gs_energy(1., g)` exactly
once and prints the relative error — and the model it builds has `L = 2`
and `bc_MPS = 'infinite'`. -/
theorem claim_C4_infinite_always_checks :
    ∀ (S M Sites : Type) (p : TenpyLibPure S M Sites) (g : ℚ) (v : Bool),
      (example_TEBD_gs_tf_ising_infinite p.toLib g v).1.filter Event.isAnalyticCheck
        = [Event.analyticE 1 g]
      ∧ (example_TEBD_gs_tf_ising_infinite p.toLib g v).1.filter Event.isRelErrPrint
        = [Event.printVal "relative error: "
            |(infinite_E p g v - p.infinite_gs_energy 1 g) / p.infinite_gs_energy 1 g|]
      ∧ (example_TEBD_gs_tf_ising_infinite p.toLib g v).1.filter Event.isModelConstruction
        = [Event.mkTFIChain (ModelParams.mk 2 1 g "infinite" none v)] := by
  intro S M Sites p g v
  rw [infinite_eval]
  refine ⟨?_, ?_, ?_⟩ <;>
    simp [infinite_trace, Event.isAnalyticCheck, Event.isRelErrPrint,
      Event.isModelConstruction]

/-- C6: `example_TEBD_tf_ising_lightcone` writes exactly one PDF file, named
by interpolating `g` formatted to two decimal places into the fixed pattern
(`'c_tebd_lightcone_' + format(g, '.2f') + '.pdf'`), and no other file is
written by the script (the other two drivers write none, and the whole
`__main__` run writes only this one). -/
theorem claim_C6_single_pdf_write :
    ∀ (S M Sites : Type) (p : TenpyLibPure S M Sites) (L : ℕ) (g tmax dt : ℚ) (v : Bool),
      (example_TEBD_tf_ising_lightcone p.toLib L g tmax dt v).1.filter Event.isFileWrite
        = [Event.savePDF ("c_tebd_lightcone_" ++ format2f g ++ ".pdf")]
      ∧ (example_TEBD_gs_tf_ising_finite p.toLib L g v).1.filter Event.isFileWrite = []
      ∧ (example_TEBD_gs_tf_ising_infinite p.toLib g v).1.filter Event.isFileWrite = []
      ∧ (c_tebd_main p.toLib).1.filter Event.isFileWrite
        = [Event.savePDF ("c_tebd_lightcone_" ++ format2f (3 / 2) ++ ".pdf")] := by
  intro S M Sites p L g tmax dt v
  have hlight : ∀ (L1 : ℕ) (g1 tmax1 dt1 : ℚ) (v1 : Bool),
      (example_TEBD_tf_ising_lightcone p.toLib L1 g1 tmax1 dt1 v1).1.filter Event.isFileWrite
        = [Event.savePDF ("c_tebd_lightcone_" ++ format2f g1 ++ ".pdf")] := by
    intro L1 g1 tmax1 dt1 v1
    rw [lightcone_eval]
    simp [lightcone_trace, List.filter_append, filter_flatten_replicate,
      Event.isFileWrite, lightcone_filename]
  have hfin : ∀ (L1 : ℕ) (g1 : ℚ) (v1 : Bool),
      (example_TEBD_gs_tf_ising_finite p.toLib L1 g1 v1).1.filter Event.isFileWrite = [] := by
    intro L1 g1 v1
    rw [finite_eval]
    by_cases h : L1 < 20 <;> simp [finite_trace, h, List.filter_append, Event.isFileWrite]
  have hinf : ∀ (g1 : ℚ) (v1 : Bool),
      (example_TEBD_gs_tf_ising_infinite p.toLib g1 v1).1.filter Event.isFileWrite = [] := by
    intro g1 v1
    rw [infinite_eval]
    simp [infinite_trace, Event.isFileWrite]
  refine ⟨hlight L g tmax dt v, hfin L g v, hinf g v, ?_⟩
  have hfinT : (finite_trace p 10 1 true).filter Event.isFileWrite = [] := by
    have h := hfin 10 1 true
    rwa [finite_eval] at h
  have hinfT : (infinite_trace p (3 / 2) true).filter Event.isFileWrite = [] := by
    have h := hinf (3 / 2) true
    rwa [infinite_eval] at h
  have hlightT : (lightcone_trace p 20 (3 / 2) 3 (100⁻¹ : ℚ) true).filter Event.isFileWrite
      = [Event.savePDF ("c_tebd_lightcone_" ++ format2f (3 / 2) ++ ".pdf")] := by
    have h := hlight 20 (3 / 2) 3 (100⁻¹ : ℚ) true
    rwa [lightcone_eval] at h
  rw [main_eval]
  simp [List.filter_append, hfinT, hinfT, hlightT, Event.isFileWrite]

/-- C7: executed directly, the script runs exactly the three hardcoded
invocations `example_TEBD_gs_tf_ising_finite(L=10, g=1.)`,
`example_TEBD_gs_tf_ising_infinite(g=1.5)` and
`example_TEBD_tf_ising_lightcone(L=20, g=1.5, tmax=3., dt=0.01)` in this
order, separated by the `"-" * 100` prints; the embedding of the
`__main__` block is a function of the library alone (no command-line flags,
configuration file or persisted state enter it). -/
theorem claim_C7_main_three_hardcoded_runs :
    ∀ (S M Sites : Type) (p : TenpyLibPure S M Sites),
      c_tebd_main p.toLib
        = (finite_trace p 10 1 true ++ [Event.print sepLine]
            ++ infinite_trace p (3 / 2) true ++ [Event.print sepLine]
            ++ lightcone_trace p 20 (3 / 2) 3 (1 / 100) true,
           Except.ok ()) := by
  intro S M Sites p
  exact main_eval p

/-- C9: both ground-state drivers return the triple `(E, psi, M)` where `E`
is the sum of `M.bond_energies(psi)` evaluated on the state after `run_GS`,
`psi` is the evolved state and `M` the constructed model; the lightcone
driver returns `None`. -/
theorem claim_C9_return_values :
    ∀ (S M Sites : Type) (p : TenpyLibPure S M Sites) (L : ℕ) (g tmax dt : ℚ) (v : Bool),
      (example_TEBD_gs_tf_ising_finite p.toLib L g v).2
        = Except.ok ((p.bond_energies (finite_model p L g v) (finite_psi p L g v)).sum,
            finite_psi p L g v, finite_model p L g v)
      ∧ (example_TEBD_gs_tf_ising_infinite p.toLib g v).2
        = Except.ok ((p.bond_energies (infinite_model p g v) (infinite_psi p g v)).sum,
            infinite_psi p g v, infinite_model p g v)
      ∧ (example_TEBD_tf_ising_lightcone p.toLib L g tmax dt v).2 = Except.ok () := by
  intro S M Sites p L g tmax dt v
  refine ⟨?_, ?_, ?_⟩
  · rw [finite_eval]
    rfl
  · rw [infinite_eval]
    rfl
  · rw [lightcone_eval]

/-- C10: the lightcone driver invokes the external DMRG routine exactly once
and with `verbose=False`, whatever the driver's own `verbose` argument is;
that argument reaches only the TEBD engine parameters. -/
theorem claim_C10_dmrg_verbose_false :
    ∀ (S M Sites : Type) (p : TenpyLibPure S M Sites) (L : ℕ) (g tmax dt : ℚ) (v : Bool),
      (example_TEBD_tf_ising_lightcone p.toLib L g tmax dt v).1.filter Event.isDmrgCall
        = [Event.dmrgRun L g false]
      ∧ (lightcone_tebd_params dt v).verbose = v
      ∧ (example_TEBD_tf_ising_lightcone p.toLib L g tmax dt v).1
        = (example_TEBD_tf_ising_lightcone p.toLib L g tmax dt true).1 := by
  intro S M Sites p L g tmax dt v
  refine ⟨?_, rfl, by rw [lightcone_eval, lightcone_eval]; rfl⟩
  rw [lightcone_eval]
  simp [lightcone_trace, List.filter_append, filter_flatten_replicate, Event.isDmrgCall]

section ErrorPropagation

/-- A library whose every call raises `e` (the first library call the script
makes will fail). -/
def failLib (E : Type) (e : E) : TenpyLib E PUnit PUnit PUnit :=
  TenpyLib.mk (fun _ => Except.error e) (fun _ => 0) (fun _ => PUnit.unit) (fun _ => "")
    (fun _ _ _ => Except.error e) (fun _ _ _ => Except.error e) (fun _ _ _ => Except.error e)
    (fun _ _ => Except.error e) (fun _ _ => Except.error e) (fun _ => [])
    (fun _ => Except.error e) (fun _ => Except.error e) (fun _ _ _ _ => Except.error e)
    (fun _ _ _ => Except.error e) (fun _ _ _ => Except.error e) (fun _ _ => Except.error e)
    (Except.error e) (fun _ => Except.error e)

/-- A library where every call succeeds except `run_GS` (the main work of
the ground-state drivers), which raises `e`. -/
def gsFailsLib (E : Type) (e : E) : TenpyLib E PUnit PUnit PUnit :=
  TenpyLib.mk (fun _ => Except.ok PUnit.unit) (fun _ => 0) (fun _ => PUnit.unit) (fun _ => "")
    (fun _ _ _ => Except.ok PUnit.unit) (fun _ _ _ => Except.error e)
    (fun _ _ _ => Except.ok PUnit.unit)
    (fun _ _ => Except.ok []) (fun _ _ => Except.ok []) (fun _ => [])
    (fun _ => Except.ok []) (fun _ => Except.ok 0) (fun _ _ _ _ => Except.ok PUnit.unit)
    (fun _ _ _ => Except.ok (0, PUnit.unit, PUnit.unit)) (fun _ _ _ => Except.ok 0)
    (fun _ _ => Except.ok 0) (Except.ok ()) (fun _ => Except.ok ())

/-- A library where every call succeeds except `plt.savefig`, which raises
`e` (the very last library call of the lightcone driver). -/
def saveFailsLib (E : Type) (e : E) : TenpyLib E PUnit PUnit PUnit :=
  TenpyLib.mk (fun _ => Except.ok PUnit.unit) (fun _ => 0) (fun _ => PUnit.unit) (fun _ => "")
    (fun _ _ _ => Except.ok PUnit.unit) (fun _ _ _ => Except.ok PUnit.unit)
    (fun _ _ _ => Except.ok PUnit.unit)
    (fun _ _ => Except.ok []) (fun _ _ => Except.ok []) (fun _ => [])
    (fun _ => Except.ok []) (fun _ => Except.ok 0) (fun _ _ _ _ => Except.ok PUnit.unit)
    (fun _ _ _ => Except.ok (0, PUnit.unit, PUnit.unit)) (fun _ _ _ => Except.ok 0)
    (fun _ _ => Except.ok 0) (Except.ok ()) (fun _ => Except.error e)

theorem lightcone_loop_ok {E S M Sites : Type} (lib : TenpyLib E S M Sites)
    (p : TenpyLibPure S M Sites)
    (hrun : ∀ m tp s, lib.run m tp s = Except.ok (p.run m tp s))
    (hee : ∀ s, lib.entanglement_entropy s = Except.ok (p.entanglement_entropy s)) :
    ∀ (n : ℕ) (e : Engine S M) (acc : List (List ℚ)),
      lightcone_loop lib n e acc =
        (List.flatten (List.replicate n [Event.engineRun, Event.entanglementEntropy]),
         Except.ok (loopPure p n e acc)) := by
  intro n
  induction n with
  | zero => intro e acc; simp [lightcone_loop, loopPure]
  | succ n ih =>
      intro e acc
      rw [lightcone_loop, loopPure]
      simp [Engine.run, hrun, hee, Proc.call, ih, List.replicate_succ, Engine.runPure]

end ErrorPropagation

/-- C5: the script contains no exception handling: when a library call
raises, the exception propagates uncaught out of the entry-point function,
the events emitted before the failing call (including prints) are exactly
the ones that happened, and nothing is rolled back or reported afterwards.
Shown for a library whose first call fails (model construction in the two
ground-state drivers, the DMRG routine in the lightcone driver), for one
failing in the middle (`run_GS`, after the model and state have been
built), and for one failing at the very last call (`plt.savefig`, after the
whole evolution has run). -/
theorem claim_C5_no_exception_handling :
    ∀ (E : Type) (e : E) (L : ℕ) (g tmax dt : ℚ) (v : Bool),
      example_TEBD_gs_tf_ising_finite (failLib E e) L g v
        = ([Event.print "finite TEBD, imaginary time evolution, transverse field Ising",
            Event.print ("L=" ++ toString L ++ ", g=" ++ format2f g),
            Event.mkTFIChain (ModelParams.mk L 1 g "finite" none v)],
           Except.error e)
      ∧ example_TEBD_gs_tf_ising_infinite (failLib E e) g v
        = ([Event.print "infinite TEBD, imaginary time evolution, transverse field Ising",
            Event.print ("g=" ++ format2f g),
            Event.mkTFIChain (ModelParams.mk 2 1 g "infinite" none v)],
           Except.error e)
      ∧ example_TEBD_tf_ising_lightcone (failLib E e) L g tmax dt v
        = ([Event.print "finite TEBD, real time evolution",
            Event.print ("L=" ++ toString L ++ ", g=" ++ format2f g ++ ", tmax="
              ++ format2f tmax ++ ", dt=" ++ formatFixed 3 dt),
            Event.print "(run DMRG to get the groundstate)",
            Event.dmrgRun L g false],
           Except.error e)
      ∧ example_TEBD_gs_tf_ising_finite (gsFailsLib E e) L g v
        = ([Event.print "finite TEBD, imaginary time evolution, transverse field Ising",
            Event.print ("L=" ++ toString L ++ ", g=" ++ format2f g),
            Event.mkTFIChain (ModelParams.mk L 1 g "finite" none v),
            Event.fromProductState (List.replicate 0 "up") "",
            Event.engineRunGS],
           Except.error e)
      ∧ example_TEBD_tf_ising_lightcone (saveFailsLib E e) L g tmax dt v
        = ([Event.print "finite TEBD, real time evolution",
            Event.print ("L=" ++ toString L ++ ", g=" ++ format2f g ++ ", tmax="
              ++ format2f tmax ++ ", dt=" ++ formatFixed 3 dt),
            Event.print "(run DMRG to get the groundstate)",
            Event.dmrgRun L g false,
            Event.print "(DMRG finished)",
            Event.applyLocalOp (L / 2) "Sigmaz" true,
            Event.entanglementEntropy]
           ++ List.flatten (List.replicate (lightcone_N tmax)
                [Event.engineRun, Event.entanglementEntropy])
           ++ [Event.plotRender, Event.savePDF (lightcone_filename g)],
           Except.error e) := by
  intro E e L g tmax dt v
  have hloop := lightcone_loop_ok (saveFailsLib E e) unitPure
    (fun _ _ _ => rfl) (fun _ => rfl)
  refine ⟨rfl, rfl, rfl, rfl, ?_⟩
  have h1 : ∀ (a : ℕ) (b : ℚ) (c : Bool),
      (saveFailsLib E e).dmrg_finite a b c = Except.ok (0, PUnit.unit, PUnit.unit) :=
    fun _ _ _ => rfl
  have h2 : ∀ (s : PUnit) (i : ℕ) (op : String) (u : Bool),
      (saveFailsLib E e).apply_local_op s i op u = Except.ok PUnit.unit := fun _ _ _ _ => rfl
  have h3 : ∀ (s : PUnit), (saveFailsLib E e).entanglement_entropy s = Except.ok [] :=
    fun _ => rfl
  have h4 : (saveFailsLib E e).figure_and_plot = Except.ok () := rfl
  have h5 : ∀ (f : String), (saveFailsLib E e).savefig f = Except.error e := fun _ => rfl
  rw [example_TEBD_tf_ising_lightcone]
  simp [Proc.call, Proc.out, hloop, h1, h2, h3, h4, h5, lightcone_N, lightcone_filename]

section FrameConditions

variable {E S M Sites α β : Type}

/-- Every event this computation emits is library-mediated: none is a
direct write to an internal field of a library-owned object. -/
def noDirectWrites (x : Proc E α) : Prop :=
  x.1.filter Event.isDirectFieldWrite = []

theorem noDirectWrites_bind {x : Proc E α} {f : α → Proc E β}
    (hx : noDirectWrites x) (hf : ∀ a, noDirectWrites (f a)) :
    noDirectWrites (Proc.bind x f) := by
  obtain ⟨tr, r⟩ := x
  cases r with
  | ok a =>
      have h1 : tr.filter Event.isDirectFieldWrite = [] := hx
      have h2 := hf a
      simp only [noDirectWrites, Proc.bind, List.filter_append] at h1 h2 ⊢
      rw [h1, h2]
      rfl
  | error err => exact hx

theorem noDirectWrites_call (ev : Event) (r : Except E α)
    (h : ev.isDirectFieldWrite = false) : noDirectWrites (Proc.call ev r) := by
  simp [noDirectWrites, Proc.call, h]

theorem noDirectWrites_pure (a : α) : noDirectWrites (pure a : Proc E α) := rfl

theorem noDirectWrites_out (s : String) : noDirectWrites (Proc.out (E := E) s) := rfl

theorem noDirectWrites_outVal (l : String) (v : ℚ) :
    noDirectWrites (Proc.outVal (E := E) l v) := rfl

theorem noDirectWrites_outNatList (l : String) (v : List ℕ) :
    noDirectWrites (Proc.outNatList (E := E) l v) := rfl

theorem noDirectWrites_engine_run (lib : TenpyLib E S M Sites) (e : Engine S M) :
    noDirectWrites (Engine.run lib e) := rfl

theorem noDirectWrites_loop (lib : TenpyLib E S M Sites) :
    ∀ (n : ℕ) (e : Engine S M) (acc : List (List ℚ)),
      noDirectWrites (lightcone_loop lib n e acc) := by
  intro n
  induction n with
  | zero => intro e acc; exact noDirectWrites_pure _
  | succ n ih =>
      intro e acc
      rw [lightcone_loop]
      refine noDirectWrites_bind (noDirectWrites_engine_run lib e) fun e1 => ?_
      exact noDirectWrites_bind (noDirectWrites_call _ _ rfl) fun ent => ih e1 _

theorem noDirectWrites_finite (lib : TenpyLib E S M Sites) (L : ℕ) (g : ℚ) (v : Bool) :
    noDirectWrites (example_TEBD_gs_tf_ising_finite lib L g v) := by
  rw [example_TEBD_gs_tf_ising_finite]
  refine noDirectWrites_bind (noDirectWrites_out _) fun a => ?_
  refine noDirectWrites_bind (noDirectWrites_out _) fun a => ?_
  refine noDirectWrites_bind (noDirectWrites_call _ _ rfl) fun m => ?_
  refine noDirectWrites_bind (noDirectWrites_call _ _ rfl) fun psi => ?_
  refine noDirectWrites_bind (noDirectWrites_call _ _ rfl) fun psi1 => ?_
  refine noDirectWrites_bind (noDirectWrites_call _ _ rfl) fun be => ?_
  refine noDirectWrites_bind (noDirectWrites_outVal _ _) fun a => ?_
  refine noDirectWrites_bind (noDirectWrites_outNatList _ _) fun a => ?_
  refine noDirectWrites_bind (noDirectWrites_call _ _ rfl) fun sx => ?_
  refine noDirectWrites_bind (noDirectWrites_outVal _ _) fun a => ?_
  refine noDirectWrites_bind (noDirectWrites_call _ _ rfl) fun sz => ?_
  refine noDirectWrites_bind (noDirectWrites_outVal _ _) fun a => ?_
  by_cases h : L < 20 <;> simp only [h, if_true, if_false]
  · refine noDirectWrites_bind (noDirectWrites_call _ _ rfl) fun ee => ?_
    refine noDirectWrites_bind (noDirectWrites_outVal _ _) fun a => ?_
    refine noDirectWrites_bind (noDirectWrites_outVal _ _) fun a => ?_
    exact noDirectWrites_pure _
  · exact noDirectWrites_bind (noDirectWrites_pure _) fun a => noDirectWrites_pure _

theorem noDirectWrites_infinite (lib : TenpyLib E S M Sites) (g : ℚ) (v : Bool) :
    noDirectWrites (example_TEBD_gs_tf_ising_infinite lib g v) := by
  rw [example_TEBD_gs_tf_ising_infinite]
  refine noDirectWrites_bind (noDirectWrites_out _) fun a => ?_
  refine noDirectWrites_bind (noDirectWrites_out _) fun a => ?_
  refine noDirectWrites_bind (noDirectWrites_call _ _ rfl) fun m => ?_
  refine noDirectWrites_bind (noDirectWrites_call _ _ rfl) fun psi => ?_
  refine noDirectWrites_bind (noDirectWrites_call _ _ rfl) fun psi1 => ?_
  refine noDirectWrites_bind (noDirectWrites_call _ _ rfl) fun be => ?_
  refine noDirectWrites_bind (noDirectWrites_outVal _ _) fun a => ?_
  refine noDirectWrites_bind (noDirectWrites_outNatList _ _) fun a => ?_
  refine noDirectWrites_bind (noDirectWrites_call _ _ rfl) fun sx => ?_
  refine noDirectWrites_bind (noDirectWrites_outVal _ _) fun a => ?_
  refine noDirectWrites_bind (noDirectWrites_call _ _ rfl) fun sz => ?_
  refine noDirectWrites_bind (noDirectWrites_outVal _ _) fun a => ?_
  refine noDirectWrites_bind (noDirectWrites_call _ _ rfl) fun xi => ?_
  refine noDirectWrites_bind (noDirectWrites_outVal _ _) fun a => ?_
  refine noDirectWrites_bind (noDirectWrites_call _ _ rfl) fun ee => ?_
  refine noDirectWrites_bind (noDirectWrites_outVal _ _) fun a => ?_
  refine noDirectWrites_bind (noDirectWrites_outVal _ _) fun a => ?_
  exact noDirectWrites_pure _

theorem noDirectWrites_lightcone (lib : TenpyLib E S M Sites) (L : ℕ) (g tmax dt : ℚ)
    (v : Bool) : noDirectWrites (example_TEBD_tf_ising_lightcone lib L g tmax dt v) := by
  rw [example_TEBD_tf_ising_lightcone]
  refine noDirectWrites_bind (noDirectWrites_out _) fun a => ?_
  refine noDirectWrites_bind (noDirectWrites_out _) fun a => ?_
  refine noDirectWrites_bind (noDirectWrites_out _) fun a => ?_
  refine noDirectWrites_bind (noDirectWrites_call _ _ rfl) fun r => ?_
  refine noDirectWrites_bind (noDirectWrites_out _) fun a => ?_
  refine noDirectWrites_bind (noDirectWrites_call _ _ rfl) fun psi1 => ?_
  refine noDirectWrites_bind (noDirectWrites_call _ _ rfl) fun s0 => ?_
  refine noDirectWrites_bind (noDirectWrites_loop lib _ _ _) fun res => ?_
  refine noDirectWrites_bind (noDirectWrites_call _ _ rfl) fun a => ?_
  refine noDirectWrites_bind (noDirectWrites_call _ _ rfl) fun a => ?_
  exact noDirectWrites_out _

end FrameConditions

/-- C8: every mutation of the library-owned handles (`psi`, `M`, `eng`)
performed by the script goes through a library call: no function of the
script ever performs a direct assignment to an attribute or internal field
of those objects — for any library behaviour (including failing calls), the
traces of all three drivers and of the `__main__` block contain no
`directFieldWrite` event. -/
theorem claim_C8_mutations_only_via_library :
    ∀ (E S M Sites : Type) (lib : TenpyLib E S M Sites) (L : ℕ) (g tmax dt : ℚ) (v : Bool),
      (example_TEBD_gs_tf_ising_finite lib L g v).1.filter Event.isDirectFieldWrite = []
      ∧ (example_TEBD_gs_tf_ising_infinite lib g v).1.filter Event.isDirectFieldWrite = []
      ∧ (example_TEBD_tf_ising_lightcone lib L g tmax dt v).1.filter
          Event.isDirectFieldWrite = []
      ∧ (c_tebd_main lib).1.filter Event.isDirectFieldWrite = [] := by
  intro E S M Sites lib L g tmax dt v
  refine ⟨noDirectWrites_finite lib L g v, noDirectWrites_infinite lib g v,
    noDirectWrites_lightcone lib L g tmax dt v, ?_⟩
  rw [c_tebd_main]
  refine noDirectWrites_bind (noDirectWrites_finite lib 10 1 true) fun a => ?_
  refine noDirectWrites_bind (noDirectWrites_out _) fun a => ?_
  refine noDirectWrites_bind (noDirectWrites_infinite lib (3 / 2) true) fun a => ?_
  refine noDirectWrites_bind (noDirectWrites_out _) fun a => ?_
  exact noDirectWrites_lightcone lib 20 (3 / 2) 3 (1 / 100) true

end CTebd
